import Mathlib

/-!
Verification of the `bevy-discord-game-sdk` integration shim (src/lib.rs).

The shim consists of two items:

* `DiscordPlugin::build` — attempts `Discord::new(self.0)`; on error it logs
  one error-level record `"Failed to initialize Discord client: {err}"`; on
  success it inserts the client as a non-send resource and registers the
  `run_discord_callbacks` system.
* `run_discord_callbacks` — a per-tick system that calls
  `client.run_callbacks()` once.

The host engine (bevy's `AppBuilder`, resource registry, scheduler) and the
external SDK (`discord_game_sdk::Discord`) are not part of this repository;
they are modelled here from the spec's description of the consumed contracts
(spec sections 2, 5 and 6).  The external constructor `Discord::new` is a
parameter of the embedding, so every theorem quantifies over all possible
constructor outcomes; the external `run_callbacks` operation is instrumented
with an invocation counter and an outcome chosen by an arbitrary `SdkModel`.
-/

/-- The client identifier type: `discord_game_sdk::ClientID` is `i64`,
modelled as an unbounded integer (no arithmetic is ever performed on it, so
overflow cannot arise). -/
abbrev ClientID := Int

/-- Modelled from the spec: the external constructor's failure value, reduced
to the human-readable description that the shim interpolates into its log
message. -/
abbrev DiscordError := String

/-- Modelled from the spec: the external SDK client handle
(`discord_game_sdk::Discord`).  Its internal state is opaque to the shim; the
only observation the claims need is how many times its callback-processing
operation has been invoked, recorded by `callbacksRun`. -/
structure Discord where
  callbacksRun : Nat
deriving DecidableEq, Repr

/-- Modelled from the spec: the behaviour the external SDK chooses for the
result of a callback-processing call ("propagation behavior is whatever the
external client defines"). -/
structure SdkModel where
  pollOutcome : Discord → Except DiscordError Unit

/-- Modelled from the spec: the external `Discord::run_callbacks` operation.
It processes pending events (instrumented as bumping `callbacksRun`) and
yields whatever outcome the external SDK defines for this call. -/
def Discord.run_callbacks (m : SdkModel) (c : Discord) : Discord × Except DiscordError Unit :=
  ({ c with callbacksRun := c.callbacksRun + 1 }, m.pollOutcome c)

/-- Log levels of the engine's logging facade (`bevy_log`); the shim only
emits `error!`. -/
inductive LogLevel where
  | error
  | warn
  | info
deriving DecidableEq, Repr

/-- One emitted log record: a level and a message. -/
structure LogRecord where
  level : LogLevel
  message : String
deriving DecidableEq, Repr

/-- Modelled from the spec: the engine's application builder.  The resource
registry is keyed by type, so the slot for the `Discord` non-send resource is
one `Option Discord`; all other builder state (other non-send resources,
ordinary resources, the system registry, emitted logs) is carried abstractly
so that frame conditions can be stated. -/
structure AppBuilder where
  discordResource : Option Discord
  otherNonSendResources : List String
  resources : List String
  systems : List String
  logs : List LogRecord
deriving DecidableEq, Repr

/-- Modelled from the spec: `AppBuilder::insert_non_send_resource` for the
`Discord` type — overwrites the single typed slot. -/
def AppBuilder.insert_non_send_resource (app : AppBuilder) (c : Discord) : AppBuilder :=
  { app with discordResource := some c }

/-- Modelled from the spec: `AppBuilder::add_system` — registers one more
per-tick system (recorded by name). -/
def AppBuilder.add_system (app : AppBuilder) (name : String) : AppBuilder :=
  { app with systems := app.systems ++ [name] }

/-- Modelled from the spec: the `bevy_log::error!` macro — appends one
error-level record to the log output. -/
def AppBuilder.log_error (app : AppBuilder) (msg : String) : AppBuilder :=
  { app with logs := app.logs ++ [⟨LogLevel.error, msg⟩] }

/-- The name under which the shim's poll system is registered. -/
def pollSystemName : String := "run_discord_callbacks"

/-- Shallow embedding of the system `run_discord_callbacks` (src/lib.rs):
its entire body is one call to the handle's callback-processing operation. -/
def run_discord_callbacks (m : SdkModel) (client : Discord) : Discord × Except DiscordError Unit :=
  Discord.run_callbacks m client

/-- Shallow embedding of `pub struct DiscordPlugin(ClientID)`: a descriptor
wrapping the client identifier supplied at construction. -/
structure DiscordPlugin where
  clientID : ClientID
deriving DecidableEq, Repr

/-- Shallow embedding of `DiscordPlugin::build` (src/lib.rs).  The external
constructor `Discord::new` is passed in as `new`; the match mirrors the
source's `match Discord::new(self.0)`. -/
def DiscordPlugin.build (new : ClientID → Except DiscordError Discord)
    (p : DiscordPlugin) (app : AppBuilder) : AppBuilder :=
  match new p.clientID with
  | Except.error err => app.log_error ("Failed to initialize Discord client: " ++ err)
  | Except.ok client => (app.insert_non_send_resource client).add_system pollSystemName

/-- Number of registrations of the poll system in a system list. -/
def countPoll : List String → Nat
  | [] => 0
  | n :: rest => (if n = pollSystemName then 1 else 0) + countPoll rest

/-- Modelled from the spec: running one registered system.  The shim's poll
system applies `run_discord_callbacks` to the `Discord` resource when present;
systems foreign to the shim do not mutate the handle (spec: the handle "is
mutated solely by the poll operation"). -/
def applySystem (m : SdkModel) (app : AppBuilder) (name : String) : AppBuilder :=
  if name = pollSystemName then
    { app with discordResource := app.discordResource.map (fun c => (run_discord_callbacks m c).1) }
  else
    app

/-- Modelled from the spec: running a list of systems in order. -/
def runSystems (m : SdkModel) : List String → AppBuilder → AppBuilder
  | [], app => app
  | n :: rest, app => runSystems m rest (applySystem m app n)

/-- Modelled from the spec: one engine tick runs every registered system
once. -/
def tick (m : SdkModel) (app : AppBuilder) : AppBuilder :=
  runSystems m app.systems app

theorem applySystem_systems (m : SdkModel) (app : AppBuilder) (n : String) :
    (applySystem m app n).systems = app.systems := by
  unfold applySystem
  split <;> rfl

theorem applySystem_logs (m : SdkModel) (app : AppBuilder) (n : String) :
    (applySystem m app n).logs = app.logs := by
  unfold applySystem
  split <;> rfl

theorem applySystem_discordResource (m : SdkModel) (app : AppBuilder) (n : String) :
    (applySystem m app n).discordResource =
      if n = pollSystemName then
        app.discordResource.map (fun c => Discord.mk (c.callbacksRun + 1))
      else app.discordResource := by
  unfold applySystem
  split <;> rfl

theorem runSystems_systems (m : SdkModel) (l : List String) :
    ∀ app : AppBuilder, (runSystems m l app).systems = app.systems := by
  induction l with
  | nil => intro app; rfl
  | cons n rest ih =>
      intro app
      rw [runSystems, ih, applySystem_systems]

theorem runSystems_logs (m : SdkModel) (l : List String) :
    ∀ app : AppBuilder, (runSystems m l app).logs = app.logs := by
  induction l with
  | nil => intro app; rfl
  | cons n rest ih =>
      intro app
      rw [runSystems, ih, applySystem_logs]

theorem runSystems_discordResource (m : SdkModel) (l : List String) :
    ∀ app : AppBuilder, (runSystems m l app).discordResource =
      app.discordResource.map (fun c => Discord.mk (c.callbacksRun + countPoll l)) := by
  induction l with
  | nil =>
      rintro ⟨d, o, r, s, lg⟩
      cases d with
      | none => rfl
      | some c => simp [runSystems, countPoll]
  | cons n rest ih =>
      intro app
      rw [runSystems, ih, applySystem_discordResource]
      rcases app with ⟨d, o, r, s, lg⟩
      by_cases h : n = pollSystemName
      · rw [if_pos h]
        cases d with
        | none => rfl
        | some c =>
            simp only [Option.map_map, Option.map_some, Option.map_some',
              Function.comp_apply, countPoll, h, if_true, Discord.mk.injEq, Option.some.injEq]
            omega
      · rw [if_neg h]
        cases d with
        | none => rfl
        | some c =>
            simp only [Option.map_some, Option.map_some', countPoll, h,
              if_neg h, if_false, Discord.mk.injEq, Option.some.injEq]
            omega

theorem tick_systems (m : SdkModel) (app : AppBuilder) :
    (tick m app).systems = app.systems :=
  runSystems_systems m app.systems app

theorem tick_logs (m : SdkModel) (app : AppBuilder) :
    (tick m app).logs = app.logs :=
  runSystems_logs m app.systems app

theorem tick_discordResource (m : SdkModel) (app : AppBuilder) :
    (tick m app).discordResource =
      app.discordResource.map (fun c => Discord.mk (c.callbacksRun + countPoll app.systems)) :=
  runSystems_discordResource m app.systems app

theorem tick_iterate_systems (m : SdkModel) (n : Nat) (app : AppBuilder) :
    ((tick m)^[n] app).systems = app.systems := by
  induction n with
  | zero => rfl
  | succ k ih => rw [Function.iterate_succ_apply', tick_systems, ih]

theorem tick_iterate_discordResource (m : SdkModel) (app : AppBuilder)
    (hk : countPoll app.systems = 1) (n : Nat) :
    ((tick m)^[n] app).discordResource =
      app.discordResource.map (fun c => Discord.mk (c.callbacksRun + n)) := by
  induction n with
  | zero =>
      cases hd : app.discordResource with
      | none => simp [hd]
      | some c => simp [hd]
  | succ k ih =>
      rw [Function.iterate_succ_apply', tick_discordResource, ih,
        tick_iterate_systems, hk, Option.map_map]
      cases hd : app.discordResource with
      | none => simp [hd]
      | some c =>
          simp only [hd, Option.map_some, Option.map_some', Function.comp_apply,
            Discord.mk.injEq, Option.some.injEq]
          omega

theorem countPoll_append (l₁ l₂ : List String) :
    countPoll (l₁ ++ l₂) = countPoll l₁ + countPoll l₂ := by
  induction l₁ with
  | nil => simp [countPoll]
  | cons n rest ih => simp [countPoll, ih]; omega

theorem tick_iterate_isSome (m : SdkModel) (n : Nat) (app : AppBuilder) :
    ((tick m)^[n] app).discordResource.isSome = app.discordResource.isSome := by
  induction n with
  | zero => rfl
  | succ k ih =>
      rw [Function.iterate_succ_apply', tick_discordResource]
      cases hd : ((tick m)^[k] app).discordResource with
      | none => rw [hd] at ih; simpa using ih
      | some c => rw [hd] at ih; simpa using ih

/-- The empty application builder used as a concrete starting state. -/
def emptyApp : AppBuilder := ⟨none, [], [], [], []⟩

/-- A concrete external constructor that always succeeds. -/
def okNew : ClientID → Except DiscordError Discord := fun _ => Except.ok ⟨0⟩

/-- A concrete external constructor that always fails. -/
def failNew : ClientID → Except DiscordError Discord := fun _ => Except.error "boom"

/-- A concrete SDK behaviour model whose poll outcome is always success. -/
def mOk : SdkModel := ⟨fun _ => Except.ok ()⟩

/-- C1: when the external constructor succeeds for the plugin's identifier,
`DiscordPlugin::build` leaves the registry's `Discord` slot holding exactly
that one client handle, registers the poll system exactly once, and each
subsequent engine tick invokes the handle's callback-processing operation
exactly once: after n ticks the handle has been polled exactly n times. -/
theorem build_success_registers_client_and_poll
    (new : ClientID → Except DiscordError Discord) (p : DiscordPlugin)
    (app : AppBuilder) (c : Discord) (m : SdkModel) (n : Nat)
    (hnew : new p.clientID = Except.ok c)
    (hfresh : countPoll app.systems = 0) :
    (DiscordPlugin.build new p app).discordResource = some c ∧
    countPoll (DiscordPlugin.build new p app).systems = 1 ∧
    ((tick m)^[n] (DiscordPlugin.build new p app)).discordResource =
      some (Discord.mk (c.callbacksRun + n)) := by
  have hb : DiscordPlugin.build new p app =
      (app.insert_non_send_resource c).add_system pollSystemName := by
    unfold DiscordPlugin.build
    rw [hnew]
  have hsys : countPoll (DiscordPlugin.build new p app).systems = 1 := by
    rw [hb]
    show countPoll (app.systems ++ [pollSystemName]) = 1
    rw [countPoll_append, hfresh]
    simp [countPoll]
  refine ⟨by rw [hb]; rfl, hsys, ?_⟩
  rw [tick_iterate_discordResource m (DiscordPlugin.build new p app) hsys n, hb]
  rfl

/-- C1 witness: a concrete successful construction, checked after three
ticks. -/
theorem build_success_registers_client_and_poll_witness :
    okNew (DiscordPlugin.mk 1).clientID = Except.ok (Discord.mk 0) ∧
    countPoll emptyApp.systems = 0 ∧
    ((DiscordPlugin.build okNew (DiscordPlugin.mk 1) emptyApp).discordResource
        = some (Discord.mk 0) ∧
      countPoll (DiscordPlugin.build okNew (DiscordPlugin.mk 1) emptyApp).systems = 1 ∧
      ((tick mOk)^[3] (DiscordPlugin.build okNew (DiscordPlugin.mk 1) emptyApp)).discordResource
        = some (Discord.mk ((Discord.mk 0).callbacksRun + 3))) :=
  ⟨rfl, rfl,
    build_success_registers_client_and_poll okNew (DiscordPlugin.mk 1) emptyApp
      (Discord.mk 0) mOk 3 rfl rfl⟩

/-- C2: when the external constructor fails, `DiscordPlugin::build` appends
exactly one error-level log record whose message carries the failure's
description, inserts no client handle, registers no system, and returns
normally (the embedding is a total function, so the error is not re-raised);
conversely, when construction succeeds no log record is emitted. -/
theorem build_failure_logs_once_and_changes_nothing_else
    (new new' : ClientID → Except DiscordError Discord) (p : DiscordPlugin)
    (app : AppBuilder) (e : DiscordError) (c : Discord)
    (hfail : new p.clientID = Except.error e)
    (hok : new' p.clientID = Except.ok c) :
    (DiscordPlugin.build new p app).logs =
      app.logs ++ [LogRecord.mk LogLevel.error ("Failed to initialize Discord client: " ++ e)] ∧
    (DiscordPlugin.build new p app).discordResource = app.discordResource ∧
    (DiscordPlugin.build new p app).systems = app.systems ∧
    (DiscordPlugin.build new' p app).logs = app.logs := by
  have hb : DiscordPlugin.build new p app =
      app.log_error ("Failed to initialize Discord client: " ++ e) := by
    unfold DiscordPlugin.build
    rw [hfail]
  have hb' : DiscordPlugin.build new' p app =
      (app.insert_non_send_resource c).add_system pollSystemName := by
    unfold DiscordPlugin.build
    rw [hok]
  exact ⟨by rw [hb]; rfl, by rw [hb]; rfl, by rw [hb]; rfl, by rw [hb']; rfl⟩

/-- C2 witness: a concrete failing construction next to a concrete succeeding
one. -/
theorem build_failure_logs_once_and_changes_nothing_else_witness :
    failNew (DiscordPlugin.mk 1).clientID = Except.error "boom" ∧
    okNew (DiscordPlugin.mk 1).clientID = Except.ok (Discord.mk 0) ∧
    ((DiscordPlugin.build failNew (DiscordPlugin.mk 1) emptyApp).logs =
        emptyApp.logs ++ [LogRecord.mk LogLevel.error ("Failed to initialize Discord client: " ++ "boom")] ∧
      (DiscordPlugin.build failNew (DiscordPlugin.mk 1) emptyApp).discordResource
        = emptyApp.discordResource ∧
      (DiscordPlugin.build failNew (DiscordPlugin.mk 1) emptyApp).systems = emptyApp.systems ∧
      (DiscordPlugin.build okNew (DiscordPlugin.mk 1) emptyApp).logs = emptyApp.logs) :=
  ⟨rfl, rfl,
    build_failure_logs_once_and_changes_nothing_else failNew okNew
      (DiscordPlugin.mk 1) emptyApp "boom" (Discord.mk 0) rfl rfl⟩

/-- C3: iterating the poll system n times invokes the handle's
callback-processing operation exactly n times: the instrumentation counter
rises by exactly one per invocation, so after n poll calls it has risen by
exactly n. -/
theorem run_discord_callbacks_iterate_count (m : SdkModel) (c : Discord) (n : Nat) :
    ((fun c => (run_discord_callbacks m c).1)^[n] c).callbacksRun = c.callbacksRun + n := by
  induction n with
  | zero => rfl
  | succ k ih =>
      rw [Function.iterate_succ_apply']
      have hstep : ∀ d : Discord,
          ((fun c => (run_discord_callbacks m c).1) d).callbacksRun = d.callbacksRun + 1 :=
        fun d => rfl
      rw [hstep, ih]
      omega

/-- C4: `DiscordPlugin::build` is total over every constructor outcome: it
always returns normally, producing either the logging result (on failure) or
the resource-insertion result (on success); the embedding has no other code
path, so no outcome makes the engine build fail. -/
theorem build_never_panics (new : ClientID → Except DiscordError Discord)
    (p : DiscordPlugin) (app : AppBuilder) :
    (∃ e, new p.clientID = Except.error e ∧
      DiscordPlugin.build new p app =
        app.log_error ("Failed to initialize Discord client: " ++ e)) ∨
    (∃ c, new p.clientID = Except.ok c ∧
      DiscordPlugin.build new p app =
        (app.insert_non_send_resource c).add_system pollSystemName) := by
  cases h : new p.clientID with
  | error e =>
      exact Or.inl ⟨e, rfl, by unfold DiscordPlugin.build; rw [h]⟩
  | ok c =>
      exact Or.inr ⟨c, rfl, by unfold DiscordPlugin.build; rw [h]⟩

/-- C5: the poll system is pure delegation: it returns the external
callback-processing operation's result verbatim, and in particular the
outcome it yields is exactly the outcome the external SDK model defines —
nothing is intercepted, transformed or suppressed by the shim. -/
theorem run_discord_callbacks_no_interception (m : SdkModel) (c : Discord) :
    run_discord_callbacks m c = Discord.run_callbacks m c ∧
    (run_discord_callbacks m c).2 = m.pollOutcome c :=
  ⟨rfl, rfl⟩

/-- C6: starting from a registry without a handle, after one build the slot
holds exactly the constructed handle on success and none on failure; and a
tick never inserts or removes a handle (occupancy of the slot is preserved). -/
theorem client_handle_at_most_one
    (new : ClientID → Except DiscordError Discord) (p : DiscordPlugin)
    (app app' : AppBuilder) (m : SdkModel)
    (hnone : app.discordResource = none) :
    (match new p.clientID with
     | Except.ok c => (DiscordPlugin.build new p app).discordResource = some c
     | Except.error _ => (DiscordPlugin.build new p app).discordResource = none) ∧
    (tick m app').discordResource.isSome = app'.discordResource.isSome := by
  constructor
  · cases h : new p.clientID with
    | ok c =>
        show (DiscordPlugin.build new p app).discordResource = some c
        unfold DiscordPlugin.build
        rw [h]
        rfl
    | error e =>
        show (DiscordPlugin.build new p app).discordResource = none
        unfold DiscordPlugin.build
        rw [h]
        exact hnone
  · rw [tick_discordResource]
    cases hd : app'.discordResource with
    | none => simp
    | some c => simp

/-- C6 witness: a concrete successful build from an empty registry, and a
tick on the empty registry. -/
theorem client_handle_at_most_one_witness :
    emptyApp.discordResource = none ∧
    ((DiscordPlugin.build okNew (DiscordPlugin.mk 1) emptyApp).discordResource
        = some (Discord.mk 0) ∧
      (tick mOk emptyApp).discordResource.isSome = emptyApp.discordResource.isSome) :=
  ⟨rfl, client_handle_at_most_one okNew (DiscordPlugin.mk 1) emptyApp emptyApp mOk rfl⟩

/-- C7: once construction has succeeded, no number of ticks ever changes the
system registry (the poll system stays registered), the poll system remains
present, and the client handle is never removed from the registry. -/
theorem active_never_revoked
    (new : ClientID → Except DiscordError Discord) (p : DiscordPlugin)
    (app : AppBuilder) (c : Discord) (m : SdkModel) (n : Nat)
    (hnew : new p.clientID = Except.ok c) :
    ((tick m)^[n] (DiscordPlugin.build new p app)).systems =
      (DiscordPlugin.build new p app).systems ∧
    pollSystemName ∈ ((tick m)^[n] (DiscordPlugin.build new p app)).systems ∧
    ((tick m)^[n] (DiscordPlugin.build new p app)).discordResource.isSome = true := by
  have hb : DiscordPlugin.build new p app =
      (app.insert_non_send_resource c).add_system pollSystemName := by
    unfold DiscordPlugin.build
    rw [hnew]
  refine ⟨tick_iterate_systems m n _, ?_, ?_⟩
  · rw [tick_iterate_systems, hb]
    show pollSystemName ∈ app.systems ++ [pollSystemName]
    simp
  · rw [tick_iterate_isSome, hb]
    rfl

/-- C7 witness: a concrete successful build observed after two ticks. -/
theorem active_never_revoked_witness :
    okNew (DiscordPlugin.mk 1).clientID = Except.ok (Discord.mk 0) ∧
    (((tick mOk)^[2] (DiscordPlugin.build okNew (DiscordPlugin.mk 1) emptyApp)).systems =
        (DiscordPlugin.build okNew (DiscordPlugin.mk 1) emptyApp).systems ∧
      pollSystemName ∈ ((tick mOk)^[2] (DiscordPlugin.build okNew (DiscordPlugin.mk 1) emptyApp)).systems ∧
      ((tick mOk)^[2] (DiscordPlugin.build okNew (DiscordPlugin.mk 1) emptyApp)).discordResource.isSome = true) :=
  ⟨rfl, active_never_revoked okNew (DiscordPlugin.mk 1) emptyApp (Discord.mk 0) mOk 2 rfl⟩

/-- C8: a build's outcome is a function of its own identifier's constructor
result alone: two builds whose constructors return the same result at their
respective identifiers produce identical builders from the same starting
state; since the embedding of build touches nothing but its arguments, a
second sequential build is unaffected by the first. -/
theorem build_deterministic_independent
    (new₁ new₂ : ClientID → Except DiscordError Discord)
    (p₁ p₂ : DiscordPlugin) (app : AppBuilder)
    (hctor : new₁ p₁.clientID = new₂ p₂.clientID) :
    DiscordPlugin.build new₁ p₁ app = DiscordPlugin.build new₂ p₂ app := by
  unfold DiscordPlugin.build
  rw [hctor]

/-- C8 witness: two constructors agreeing at the two identifiers. -/
theorem build_deterministic_independent_witness :
    okNew (DiscordPlugin.mk 1).clientID = okNew (DiscordPlugin.mk 2).clientID ∧
    DiscordPlugin.build okNew (DiscordPlugin.mk 1) emptyApp =
      DiscordPlugin.build okNew (DiscordPlugin.mk 2) emptyApp :=
  ⟨rfl, build_deterministic_independent okNew okNew (DiscordPlugin.mk 1)
    (DiscordPlugin.mk 2) emptyApp rfl⟩

/-- C9: the identifier stored in the plugin descriptor is exactly the one
supplied at construction (the descriptor is immutable), and build consults
the external constructor only at exactly that stored identifier: replacing
the constructor by its value at the stored identifier changes nothing. -/
theorem identifier_immutable_and_passed_unmodified
    (new : ClientID → Except DiscordError Discord) (p : DiscordPlugin)
    (app : AppBuilder) (i : ClientID) :
    (DiscordPlugin.mk i).clientID = i ∧
    DiscordPlugin.build new p app =
      DiscordPlugin.build (fun _ => new p.clientID) p app :=
  ⟨rfl, rfl⟩

/-- C10: the frame condition of build: ordinary resources and other non-send
resources are untouched; on success exactly the one resource slot is filled
and exactly the one system appended with no log output; on failure exactly
one log record is appended with resource slot and system registry
untouched. -/
theorem build_frame_effect (new : ClientID → Except DiscordError Discord)
    (p : DiscordPlugin) (app : AppBuilder) :
    (DiscordPlugin.build new p app).resources = app.resources ∧
    (DiscordPlugin.build new p app).otherNonSendResources = app.otherNonSendResources ∧
    (match new p.clientID with
     | Except.ok c =>
        (DiscordPlugin.build new p app).discordResource = some c ∧
        (DiscordPlugin.build new p app).systems = app.systems ++ [pollSystemName] ∧
        (DiscordPlugin.build new p app).logs = app.logs
     | Except.error e =>
        (DiscordPlugin.build new p app).discordResource = app.discordResource ∧
        (DiscordPlugin.build new p app).systems = app.systems ∧
        (DiscordPlugin.build new p app).logs =
          app.logs ++ [LogRecord.mk LogLevel.error ("Failed to initialize Discord client: " ++ e)]) := by
  cases h : new p.clientID with
  | ok c =>
      have hb : DiscordPlugin.build new p app =
          (app.insert_non_send_resource c).add_system pollSystemName := by
        unfold DiscordPlugin.build
        rw [h]
      exact ⟨by rw [hb]; rfl, by rw [hb]; rfl, by rw [hb]; exact ⟨rfl, rfl, rfl⟩⟩
  | error e =>
      have hb : DiscordPlugin.build new p app =
          app.log_error ("Failed to initialize Discord client: " ++ e) := by
        unfold DiscordPlugin.build
        rw [h]
      exact ⟨by rw [hb]; rfl, by rw [hb]; rfl, by rw [hb]; exact ⟨rfl, rfl, rfl⟩⟩
